import Mathlib

/-!
Shallow embedding of the activation / entitlement core of the
Printer_WEB_APIServer repository (Flask + SQLAlchemy), together with proofs
checking its natural-language specification against the code.

Conventions of the embedding:
* Wall-clock instants and datetimes are `Int` seconds; Python's
  `timedelta(days = n)` is `n * day` seconds, `.days` is floor division.
* A SQLAlchemy table is a `List` of rows; `query.filter(...).first()` is
  `List.find?`; an ORM row update re-writes the first row matched by the
  same predicate (`update_first`).
* Handlers become functions `DB → ... → Except ApiErr DB`; an `.error`
  result models an early `return jsonify({'error': ...}), code` before any
  mutation is committed, so the store is unchanged in that case.
* `db.session.add(row); db.session.commit()` enforces the declared unique
  constraints (`uq_device_platform` on devices, `unique=True` on
  `activation_keys.key_code`, unique user email); a violating commit raises
  `IntegrityError`, modelled as `ApiErr.integrityError` (HTTP 500, rollback).
* Request-body parsing, `.strip()` / case canonicalisation and JSON
  serialisation are elided: handlers receive the canonicalised values.
-/

deriving instance DecidableEq for Except

namespace PrinterWeb

/-- One day in seconds: Python `timedelta(days = n)` is `n * day` seconds. -/
def day : Int := 86400

/-- `timedelta.days` of a signed duration in seconds (floor division). -/
def td_days (delta : Int) : Int := Int.fdiv delta day

/-- `timedelta.seconds // 3600` of a duration in seconds: Python normalises
`seconds` into `[0, 86400)`, which is `Int.emod` for a positive modulus. -/
def td_hours (delta : Int) : Int := Int.ediv (Int.emod delta day) 3600

/-- SQL comparison `column > now` on a nullable datetime column:
`NULL` compares as not-greater.  Also models Python
`x and x > now` for an optional `x`. -/
def afterB (t : Option Int) (now : Int) : Bool :=
  match t with
  | some x => decide (now < x)
  | none => false

/-- Modelled from the spec: `app/models/user.py` is not under `src/`.
Spec §3 User: unique email, password credential, `is_active` flag,
`is_admin` flag; matches every use of the model in the `src/` routes
(`user.id`, `user.email`, `user.password_hash`, `user.is_active`,
`user.is_admin`). -/
structure User where
  id : Nat
  email : String
  password_hash : String
  is_active : Bool
  is_admin : Bool
  deriving DecidableEq, Repr

/-- Row of `devices` (src/app/models/device.py).  The table declares the
unique constraint `uq_device_platform` over the pair `(device_id, platform)`. -/
structure Device where
  id : Nat
  user_id : Nat
  device_id : String
  platform : String
  trial_started_at : Int
  trial_expires_at : Int
  created_at : Int
  deriving DecidableEq, Repr

/-- Row of `activation_keys` (src/app/models/activation_key.py).
`key_code` is declared `unique=True`; `status` is one of
available / sold / activated / expired / revoked; the redemption fields
(`user_id`, `activated_email`, `activated_at`, `expires_at`) and the
sale-tracking fields are nullable. -/
structure ActivationKey where
  id : Nat
  key_code : String
  duration_days : Int
  status : String
  user_id : Option Nat
  activated_email : Option String
  activated_at : Option Int
  expires_at : Option Int
  sold_to_name : Option String
  sold_to_email : Option String
  sold_at : Option Int
  sold_price : Option Int
  notes : Option String
  created_by : Option Nat
  created_at : Int
  deriving DecidableEq, Repr

/-- The persistent store: one list of rows per table of the core. -/
structure DB where
  users : List User
  keys : List ActivationKey
  devices : List Device
  deriving DecidableEq, Repr

/-- Error responses of the handlers, by taxonomy. `integrityError` models an
uncaught SQLAlchemy `IntegrityError` on commit (HTTP 500, rollback). -/
inductive ApiErr where
  | badRequest (msg : String)
  | unauthorized (msg : String)
  | forbidden (msg : String)
  | notFound (msg : String)
  | conflict (msg : String)
  | integrityError
  deriving DecidableEq, Repr

/-- HTTP status code of an error response. -/
def ApiErr.code : ApiErr → Nat
  | .badRequest _ => 400
  | .unauthorized _ => 401
  | .forbidden _ => 403
  | .notFound _ => 404
  | .conflict _ => 409
  | .integrityError => 500

/-- Post-state of a handler run: the new store on success, the unchanged
store when the handler returned an error before committing. -/
def result_state (db : DB) : Except ApiErr DB → DB
  | .ok db' => db'
  | .error _ => db

/-- ORM row update: rewrite the first row satisfying the lookup predicate
(the row `query.filter(...).first()` returned), leave the rest untouched. -/
def update_first (p : α → Bool) (f : α → α) : List α → List α
  | [] => []
  | x :: xs => if p x then f x :: xs else x :: update_first p f xs

/-- `uq_device_platform`: no two device rows share a `(device_id, platform)`
pair. -/
def pairs_unique : List Device → Bool
  | [] => true
  | d :: ds =>
    !(ds.any (fun e => e.device_id == d.device_id && e.platform == d.platform)) &&
      pairs_unique ds

/-- `activation_keys.key_code` is declared `unique=True`. -/
def key_codes_unique : List ActivationKey → Bool
  | [] => true
  | k :: ks => !(ks.any (fun e => e.key_code == k.key_code)) && key_codes_unique ks

/-- Unique user email (spec §3: identity is a unique email). -/
def emails_unique : List User → Bool
  | [] => true
  | u :: us => !(us.any (fun e => e.email == u.email)) && emails_unique us

/-- Auto-increment id helpers for row inserts. -/
def next_user_id (db : DB) : Nat := db.users.foldl (fun m u => max m u.id) 0 + 1

def next_device_id (db : DB) : Nat := db.devices.foldl (fun m d => max m d.id) 0 + 1

def next_key_id (db : DB) : Nat := db.keys.foldl (fun m k => max m k.id) 0 + 1

/-- External collaborators of the core: the input validators
(`app/utils/validators.py` is not under `src/`), the password hasher /
checker (werkzeug) and the configured trial length
(`TRIAL_DURATION_DAYS = 3` in src/app/config.py). -/
structure Ext where
  validate_email : String → Bool
  validate_password : String → Bool
  hash_password : String → String
  check_password : String → String → Bool
  trial_days : Int

/-- JSON payload of an entitlement evaluation (`status` is one of
"active" / "trial" / "expired"; absent JSON fields are `none`). -/
structure StatusPayload where
  status : String
  key_code : Option String := none
  email : Option String := none
  activated_at : Option Int := none
  expires_at : Option Int := none
  days_remaining : Int := 0
  hours_remaining : Option Int := none
  deriving DecidableEq, Repr

/-- `_get_activation_status` (src/app/routes/auth.py, lines 22-63): the
activation block embedded in every auth response.  Admins short-circuit to
`active` with the sentinel 999; otherwise the first activated unexpired key
of the user wins, then the first unexpired trial device, else `expired`. -/
def get_activation_status (db : DB) (now : Int) (user : User) : StatusPayload :=
  if user.is_admin then
    { status := "active", days_remaining := 999 }
  else
    match db.keys.find? (fun k =>
        k.user_id == some user.id && k.status == "activated" && afterB k.expires_at now) with
    | some k =>
      { status := "active"
        key_code := some k.key_code
        email := k.activated_email
        activated_at := k.activated_at
        expires_at := k.expires_at
        days_remaining := max 0 (td_days (k.expires_at.getD 0 - now)) }
    | none =>
      match db.devices.find? (fun d =>
          d.user_id == user.id && decide (now < d.trial_expires_at)) with
      | some d =>
        { status := "trial"
          expires_at := some d.trial_expires_at
          days_remaining := max 0 (td_days (d.trial_expires_at - now))
          hours_remaining := some (td_hours (d.trial_expires_at - now)) }
      | none => { status := "expired", days_remaining := 0 }

/-- `GET /activation/status` handler (src/app/routes/activation.py,
`status`, lines 13-54).  Note: unlike `_get_activation_status` in
auth.py, this handler performs NO `is_admin` short-circuit: every caller,
admin or not, gets the plain key-then-trial-then-expired evaluation. -/
def status_route (db : DB) (now : Int) (user : User) : StatusPayload :=
  match db.keys.find? (fun k =>
      k.user_id == some user.id && k.status == "activated" && afterB k.expires_at now) with
  | some k =>
    { status := "active"
      key_code := some k.key_code
      email := k.activated_email
      activated_at := k.activated_at
      expires_at := k.expires_at
      days_remaining := max 0 (td_days (k.expires_at.getD 0 - now)) }
  | none =>
    match db.devices.find? (fun d =>
        d.user_id == user.id && decide (now < d.trial_expires_at)) with
    | some d =>
      { status := "trial"
        expires_at := some d.trial_expires_at
        days_remaining := max 0 (td_days (d.trial_expires_at - now)) }
    | none => { status := "expired", days_remaining := 0 }

/-- `POST /activation/activate` handler (src/app/routes/activation.py,
`activate`, lines 57-107).  Status gate in source order: `activated` → 409,
`revoked` → 409, anything outside available/sold → 400; only then the
redemption fields are written and committed.  The source also computes an
`existing_active` query for the caller's current active key, but its result
is never used (no early return), so it has no observable effect and is
omitted here. -/
def activate (db : DB) (now : Int) (user : User) (key_code : String) :
    Except ApiErr DB :=
  if key_code == "" then .error (.badRequest "Key code is required")
  else
    match db.keys.find? (fun k => k.key_code == key_code) with
    | none => .error (.notFound "Invalid activation key")
    | some key =>
      if key.status == "activated" then
        .error (.conflict "This key has already been activated")
      else if key.status == "revoked" then
        .error (.conflict "This key has been revoked")
      else if !(key.status == "available" || key.status == "sold") then
        .error (.badRequest "This key cannot be activated")
      else
        .ok { db with
          keys := update_first (fun k => k.key_code == key_code)
            (fun k => { k with
              user_id := some user.id
              activated_email := some user.email
              activated_at := some now
              expires_at := some (now + key.duration_days * day)
              status := "activated" }) db.keys }

/-- `POST /admin/users/{id}/extend` handler (src/app/routes/admin.py,
`extend_license`, lines 230-273).  Guards in source order: superadmin id 1
hidden (404), unknown user (404), `days < 1` (covers Python's falsy-zero
check too, 400), then the FIRST key of the user with `status = activated`
(regardless of expiry).  Unexpired key: additive extension; expired or
null expiry: restart from `now`. -/
def extend_license (db : DB) (now : Int) (user_id : Nat) (days : Int) :
    Except ApiErr DB :=
  if user_id == 1 then .error (.notFound "User not found")
  else
    match db.users.find? (fun u => u.id == user_id) with
    | none => .error (.notFound "User not found")
    | some _ =>
      if days < 1 then .error (.badRequest "days must be a positive number")
      else
        match db.keys.find? (fun k =>
            k.user_id == some user_id && k.status == "activated") with
        | none => .error (.notFound "User has no activated key")
        | some key =>
          if afterB key.expires_at now then
            .ok { db with
              keys := update_first
                (fun k => k.user_id == some user_id && k.status == "activated")
                (fun k => { k with
                  expires_at := k.expires_at.map (fun e => e + days * day)
                  duration_days := k.duration_days + days }) db.keys }
          else
            .ok { db with
              keys := update_first
                (fun k => k.user_id == some user_id && k.status == "activated")
                (fun k => { k with
                  activated_at := some now
                  expires_at := some (now + days * day)
                  duration_days := days }) db.keys }

/-- `POST /admin/users/{id}/assign-key` handler (src/app/routes/admin.py,
`assign_key`, lines 276-312).  `key_id == 0` models Python's falsy check
`if not key_id` on a missing / zero id. -/
def assign_key (db : DB) (now : Int) (user_id : Nat) (key_id : Nat) :
    Except ApiErr DB :=
  if user_id == 1 then .error (.notFound "User not found")
  else
    match db.users.find? (fun u => u.id == user_id) with
    | none => .error (.notFound "User not found")
    | some target =>
      if key_id == 0 then .error (.badRequest "key_id is required")
      else
        match db.keys.find? (fun k => k.id == key_id) with
        | none => .error (.notFound "Key not found")
        | some key =>
          if !(key.status == "available" || key.status == "sold") then
            .error (.badRequest "Ключ уже использован или отозван")
          else
            .ok { db with
              keys := update_first (fun k => k.id == key_id)
                (fun k => { k with
                  user_id := some target.id
                  activated_email := some target.email
                  activated_at := some now
                  expires_at := some (now + key.duration_days * day)
                  status := "activated" }) db.keys }

/-- Body of a `PUT /admin/keys/{id}` request: `some v` models a field
present in the JSON body with value `v` (an inner `none` models an
explicit null after the handler's strip-or-None normalisation). -/
structure KeyUpdate where
  status : Option String := none
  sold_to_name : Option (Option String) := none
  sold_to_email : Option (Option String) := none
  sold_price : Option (Option Int) := none
  notes : Option (Option String) := none
  duration_days : Option Int := none
  deriving DecidableEq, Repr

/-- First block of `update_key`: the `'status' in data` branch.  Revocation
clears the redemption fields and force-expires every not-yet-lapsed trial
device of the key's pre-revocation user; the sold branch only fires on an
`available` key; any other supplied status is ignored. -/
def apply_status_update (now : Int) (devices : List Device) (key : ActivationKey)
    (data : KeyUpdate) : ActivationKey × List Device :=
  match data.status with
  | some s =>
    if s == "revoked" then
      let devices' :=
        match key.user_id with
        | some uid => devices.map (fun d =>
            if d.user_id == uid && decide (now < d.trial_expires_at) then
              { d with trial_expires_at := now }
            else d)
        | none => devices
      ({ key with
          status := "revoked"
          user_id := none
          activated_email := none
          activated_at := none
          expires_at := none }, devices')
    else if s == "sold" && key.status == "available" then
      ({ key with status := "sold", sold_at := some now }, devices)
    else (key, devices)
  | none => (key, devices)

/-- Second block of `update_key`: the freely-editable sale fields and
notes. -/
def apply_sale_fields (key : ActivationKey) (data : KeyUpdate) : ActivationKey :=
  let k2 := match data.sold_to_name with
    | some v => { key with sold_to_name := v }
    | none => key
  let k3 := match data.sold_to_email with
    | some v => { k2 with sold_to_email := v }
    | none => k2
  let k4 := match data.sold_price with
    | some v => { k3 with sold_price := v }
    | none => k3
  match data.notes with
  | some v => { k4 with notes := v }
  | none => k4

/-- Third block of `update_key`: `duration_days`, with the retroactive
`expires_at` recompute for keys that are (still) `activated` with a
non-null `activated_at`. -/
def apply_duration_update (key : ActivationKey) (data : KeyUpdate) : ActivationKey :=
  match data.duration_days with
  | some nd =>
    let kd := { key with duration_days := nd }
    if kd.status == "activated" then
      match kd.activated_at with
      | some a => { kd with expires_at := some (a + nd * day) }
      | none => kd
    else kd
  | none => key

/-- Field edits of `update_key` applied to the looked-up key row, in source
order: status branch, sale fields, then duration. -/
def apply_key_update (now : Int) (devices : List Device) (key : ActivationKey)
    (data : KeyUpdate) : ActivationKey × List Device :=
  let step1 := apply_status_update now devices key data
  (apply_duration_update (apply_sale_fields step1.1 data) data, step1.2)

/-- `PUT /admin/keys/{id}` handler (src/app/routes/admin.py, `update_key`,
lines 398-445). -/
def update_key (db : DB) (now : Int) (key_id : Nat) (data : KeyUpdate) :
    Except ApiErr DB :=
  match db.keys.find? (fun k => k.id == key_id) with
  | none => .error (.notFound "Key not found")
  | some key =>
    let r := apply_key_update now db.devices key data
    .ok { db with
      keys := update_first (fun k => k.id == key_id) (fun _ => r.1) db.keys
      devices := r.2 }

/-- `POST /admin/keys/generate` handler (src/app/routes/admin.py,
`generate_keys`, lines 351-395).  `gen i` is the i-th output of
`generate_activation_key()` (src/app/utils/key_generator.py) during the
batch.  The handler performs NO collision check against the persisted
codes: each generated code is added blindly, and only the
`unique=True` constraint on `key_code` at commit time rejects a duplicate
(uncaught `IntegrityError`, rolling back the whole batch). -/
def generate_keys (db : DB) (now : Int) (admin_id : Nat) (gen : Nat → String)
    (count : Int) (duration_days : Int) (sold_to_name sold_to_email : Option String)
    (sold_price : Option Int) (notes : Option String) : Except ApiErr DB :=
  let clamped : Nat := (min (max 1 count) 100).toNat
  let is_sold := sold_to_name.isSome || sold_to_email.isSome
  let initial_status := if is_sold then "sold" else "available"
  let sold_at := if is_sold then some now else none
  let base := next_key_id db
  let new_keys := (List.range clamped).map (fun i =>
    ({ id := base + i
       key_code := gen i
       duration_days := duration_days
       status := initial_status
       user_id := none
       activated_email := none
       activated_at := none
       expires_at := none
       sold_to_name := sold_to_name
       sold_to_email := sold_to_email
       sold_at := sold_at
       sold_price := sold_price
       notes := notes
       created_by := some admin_id
       created_at := now } : ActivationKey))
  let keys' := db.keys ++ new_keys
  if key_codes_unique keys' then .ok { db with keys := keys' }
  else .error .integrityError

/-- Body of `POST /auth/register` after canonicalisation. -/
structure RegisterInput where
  email : String
  password : String
  device_id : String
  platform : String
  deriving DecidableEq, Repr

/-- `POST /auth/register` handler (src/app/routes/auth.py, `register`,
lines 66-129): validations in source order, email-uniqueness check, then
the device trial-uniqueness check on the bare `(device_id, platform)` pair
(any owner), then the user + trial-device insert. -/
def register (ext : Ext) (db : DB) (now : Int) (inp : RegisterInput) :
    Except ApiErr DB :=
  if inp.email == "" || inp.password == "" || inp.device_id == "" then
    .error (.badRequest "Email, password, and device_id are required")
  else if !(ext.validate_email inp.email) then
    .error (.badRequest "Invalid email format")
  else if !(ext.validate_password inp.password) then
    .error (.badRequest "Password must be at least 6 characters")
  else if !(inp.platform == "android" || inp.platform == "web") then
    .error (.badRequest "Platform must be android or web")
  else if (db.users.find? (fun u => u.email == inp.email)).isSome then
    .error (.conflict "Email already registered")
  else if (db.devices.find? (fun d =>
      d.device_id == inp.device_id && d.platform == inp.platform)).isSome then
    .error (.conflict "This device has already been used for a trial period")
  else
    let uid := next_user_id db
    let user : User :=
      { id := uid
        email := inp.email
        password_hash := ext.hash_password inp.password
        is_active := true
        is_admin := false }
    let device : Device :=
      { id := next_device_id db
        user_id := uid
        device_id := inp.device_id
        platform := inp.platform
        trial_started_at := now
        trial_expires_at := now + ext.trial_days * day
        created_at := now }
    let users' := db.users ++ [user]
    let devices' := db.devices ++ [device]
    if emails_unique users' && pairs_unique devices' then
      .ok { db with users := users', devices := devices' }
    else .error .integrityError

/-- Body of `POST /auth/login` after canonicalisation. -/
structure LoginInput where
  email : String
  password : String
  device_id : String
  platform : String
  deriving DecidableEq, Repr

/-- `POST /auth/login` handler (src/app/routes/auth.py, `login`, lines
132-176), device-observation part included: when the caller supplies a
`(device_id, platform)` that this user does not already have on file, a
device row is inserted with an immediately-elapsed trial window.  Note the
lookup filters by `user_id` as well, so a pair registered to a DIFFERENT
user is not found and the insert is attempted; the `uq_device_platform`
constraint then rejects the commit. -/
def login (ext : Ext) (db : DB) (now : Int) (inp : LoginInput) :
    Except ApiErr DB :=
  if inp.email == "" || inp.password == "" then
    .error (.badRequest "Email and password are required")
  else
    match db.users.find? (fun u => u.email == inp.email) with
    | none => .error (.unauthorized "Invalid email or password")
    | some user =>
      if !(ext.check_password user.password_hash inp.password) then
        .error (.unauthorized "Invalid email or password")
      else if !user.is_active then .error (.forbidden "Account disabled")
      else if inp.device_id == "" || inp.platform == "" then .ok db
      else if (db.devices.find? (fun d =>
          d.user_id == user.id && d.device_id == inp.device_id &&
            d.platform == inp.platform)).isSome then
        .ok db
      else
        let device : Device :=
          { id := next_device_id db
            user_id := user.id
            device_id := inp.device_id
            platform := inp.platform
            trial_started_at := now
            trial_expires_at := now
            created_at := now }
        let devices' := db.devices ++ [device]
        if pairs_unique devices' then .ok { db with devices := devices' }
        else .error .integrityError

/-- Nullable strict comparison: both sides non-null and left < right. -/
def opt_lt (a b : Option Int) : Bool :=
  match a, b with
  | some x, some y => decide (x < y)
  | _, _ => false

/-- Spec §8 / §3 key invariant, per row: an `activated` key has all four
redemption fields non-null with `expires_at > activated_at`. -/
def key_inv_b (k : ActivationKey) : Bool :=
  !(k.status == "activated") ||
    (k.user_id.isSome && k.activated_email.isSome &&
      opt_lt k.activated_at k.expires_at)

/-- Spec §8 / §3 key invariant over the whole store. -/
def db_key_inv (db : DB) : Prop := ∀ k ∈ db.keys, key_inv_b k = true

instance (db : DB) : Decidable (db_key_inv db) :=
  inferInstanceAs (Decidable (∀ k ∈ db.keys, key_inv_b k = true))

/-! ### List lemmas about the row-update and uniqueness helpers -/

theorem mem_update_first_of_neg {α : Type} {p : α → Bool} {f : α → α}
    {l : List α} {x : α} (hx : x ∈ l) (hpx : p x = false) :
    x ∈ update_first p f l := by
  induction l with
  | nil => cases hx
  | cons a l ih =>
    rcases List.mem_cons.mp hx with rfl | hxl
    · simp [update_first, hpx]
    · by_cases hpa : p a
      · simp [update_first, hpa, hxl]
      · simp only [update_first, if_neg hpa]
        exact List.mem_cons_of_mem _ (ih hxl)

theorem find?_update_first_mem {α : Type} {p : α → Bool} {f : α → α}
    {l : List α} {x : α} (h : l.find? p = some x) :
    f x ∈ update_first p f l := by
  induction l with
  | nil => simp at h
  | cons a l ih =>
    by_cases hpa : p a
    · rw [List.find?_cons_of_pos _ hpa] at h
      injection h with h
      subst h
      simp [update_first, hpa]
    · rw [List.find?_cons_of_neg _ hpa] at h
      simp only [update_first, if_neg hpa]
      exact List.mem_cons_of_mem _ (ih h)

theorem mem_update_first {α : Type} {p : α → Bool} {f : α → α}
    {l : List α} {y : α} (hy : y ∈ update_first p f l) :
    y ∈ l ∨ ∃ x, x ∈ l ∧ p x = true ∧ y = f x := by
  induction l with
  | nil => cases hy
  | cons a l ih =>
    by_cases hpa : p a
    · rw [update_first, if_pos hpa] at hy
      rcases List.mem_cons.mp hy with rfl | hyl
      · exact Or.inr ⟨a, List.mem_cons_self a l, hpa, rfl⟩
      · exact Or.inl (List.mem_cons_of_mem _ hyl)
    · rw [update_first, if_neg hpa] at hy
      rcases List.mem_cons.mp hy with rfl | hyl
      · exact Or.inl (List.mem_cons_self _ l)
      · rcases ih hyl with h1 | ⟨x, hx, hpx, hyx⟩
        · exact Or.inl (List.mem_cons_of_mem _ h1)
        · exact Or.inr ⟨x, List.mem_cons_of_mem _ hx, hpx, hyx⟩

/-- In a pairwise-unique device table, a `(device_id, platform)` pair
determines its row. -/
theorem pairs_unique_bound {l : List Device} (h : pairs_unique l = true)
    {d d' : Device} (hd : d ∈ l) (hd' : d' ∈ l)
    (h1 : d'.device_id = d.device_id) (h2 : d'.platform = d.platform) :
    d' = d := by
  induction l with
  | nil => cases hd
  | cons a l ih =>
    simp only [pairs_unique, Bool.and_eq_true, Bool.not_eq_true'] at h
    obtain ⟨hna, hrest⟩ := h
    have hall : ∀ e ∈ l, ¬(e.device_id = a.device_id ∧ e.platform = a.platform) := by
      intro e he hc
      have : l.any (fun e => e.device_id == a.device_id && e.platform == a.platform) = true :=
        List.any_eq_true.mpr ⟨e, he, by simp [hc.1, hc.2]⟩
      rw [hna] at this
      cases this
    rcases List.mem_cons.mp hd with rfl | hdl
    · rcases List.mem_cons.mp hd' with rfl | hdl'
      · rfl
      · exact absurd ⟨h1, h2⟩ (hall d' hdl')
    · rcases List.mem_cons.mp hd' with rfl | hdl'
      · exact absurd ⟨h1.symm, h2.symm⟩ (hall d hdl)
      · exact ih hrest hdl hdl'

/-! ### Invariant helper lemmas -/

theorem key_inv_b_of_not_activated {k : ActivationKey}
    (h : (k.status == "activated") = false) : key_inv_b k = true := by
  simp [key_inv_b, h]

theorem key_inv_b_elim {k : ActivationKey} (h : key_inv_b k = true)
    (hs : (k.status == "activated") = true) :
    k.user_id.isSome = true ∧ k.activated_email.isSome = true ∧
      ∃ a e, k.activated_at = some a ∧ k.expires_at = some e ∧ a < e := by
  simp only [key_inv_b, hs, Bool.not_true, Bool.false_or, Bool.and_eq_true] at h
  obtain ⟨⟨hu, he⟩, hlt⟩ := h
  refine ⟨hu, he, ?_⟩
  unfold opt_lt at hlt
  cases ha : k.activated_at with
  | none => rw [ha] at hlt; cases hlt
  | some a =>
    cases hx : k.expires_at with
    | none => rw [ha, hx] at hlt; cases hlt
    | some e =>
      rw [ha, hx] at hlt
      exact ⟨a, e, rfl, rfl, of_decide_eq_true hlt⟩

/-! ### Concrete fixtures (shared base rows for witnesses/counterexamples) -/

/-- A blank key row: every nullable column null. -/
def blank_key : ActivationKey :=
  { id := 1
    key_code := "K1"
    duration_days := 365
    status := "available"
    user_id := none
    activated_email := none
    activated_at := none
    expires_at := none
    sold_to_name := none
    sold_to_email := none
    sold_at := none
    sold_price := none
    notes := none
    created_by := none
    created_at := 0 }

/-- Concrete collaborator bundle used to instantiate witnesses. -/
def ext0 : Ext :=
  { validate_email := fun e => !(e == "")
    validate_password := fun s => decide (6 ≤ s.length)
    hash_password := fun s => s
    check_password := fun h p => h == p
    trial_days := 3 }

/-! ### C1 -/

/-- Fixture for C1: an admin user with no activation keys and no devices. -/
def c1_admin : User :=
  { id := 5, email := "admin@example.com", password_hash := "h"
    is_active := true, is_admin := true }

def c1_db : DB := { users := [c1_admin], keys := [], devices := [] }

/-- C1: the claim says EVERY entitlement evaluation, including the
`GET /activation/status` handler, returns `active` for an admin.  The code
diverges: for an admin with no activated key and no unexpired trial device,
the auth-embedded evaluation `_get_activation_status` returns `active`
(sentinel 999 days), but the `/activation/status` handler — which has no
`is_admin` short-circuit — returns `expired`. -/
theorem c1_admin_status_route_divergence :
    c1_admin.is_admin = true ∧
    get_activation_status c1_db 0 c1_admin =
      { status := "active", days_remaining := 999 } ∧
    status_route c1_db 0 c1_admin = { status := "expired", days_remaining := 0 } :=
  ⟨rfl, rfl, rfl⟩

/-! ### C9 -/

/-- Fixture for C9: one key with code "DUP" is already persisted. -/
def c9_db : DB :=
  { users := [c1_admin], keys := [{ blank_key with key_code := "DUP" }], devices := [] }

/-- C9: the claim says batch generation checks each generated code against
the persisted codes (or regenerates on conflict) before insert.  The code
does neither: when the generator returns an already-persisted code, the
handler inserts blindly and the whole batch is rejected only by the
`unique=True` commit-time constraint (uncaught `IntegrityError`, HTTP 500),
with nothing persisted and no regeneration. -/
theorem c9_generate_keys_no_collision_check :
    generate_keys c9_db 0 5 (fun _ => "DUP") 1 365 none none none none =
      .error .integrityError ∧
    result_state c9_db
      (generate_keys c9_db 0 5 (fun _ => "DUP") 1 365 none none none none) = c9_db :=
  ⟨rfl, rfl⟩

/-! ### C3 -/

/-- C3: redeeming a key that is already `activated` fails with Conflict
(409); `revoked` fails with Conflict (409); any other status outside
available/sold fails with a 400; and in every failure case the store — in
particular the key row — is unchanged. -/
theorem c3_activate_rejects_nonredeemable (db : DB) (now : Int) (user : User)
    (code : String) (key : ActivationKey) (hcode : code ≠ "")
    (hfind : db.keys.find? (fun k => k.key_code == code) = some key) :
    (key.status = "activated" →
      activate db now user code =
        .error (.conflict "This key has already been activated") ∧
      (ApiErr.conflict "This key has already been activated").code = 409 ∧
      result_state db (activate db now user code) = db) ∧
    (key.status = "revoked" →
      activate db now user code = .error (.conflict "This key has been revoked") ∧
      (ApiErr.conflict "This key has been revoked").code = 409 ∧
      result_state db (activate db now user code) = db) ∧
    (key.status ≠ "activated" → key.status ≠ "revoked" →
     key.status ≠ "available" → key.status ≠ "sold" →
      activate db now user code = .error (.badRequest "This key cannot be activated") ∧
      (ApiErr.badRequest "This key cannot be activated").code = 400 ∧
      result_state db (activate db now user code) = db) := by
  have hc : (code == "") = false := by
    simp only [beq_eq_false_iff_ne, ne_eq]
    exact hcode
  refine ⟨fun hs => ?_, fun hs => ?_, fun h1 h2 h3 h4 => ?_⟩
  · have heq : activate db now user code =
        .error (.conflict "This key has already been activated") := by
      simp [activate, hc, hfind, hs]
    exact ⟨heq, rfl, by rw [heq]; rfl⟩
  · have b1 : (key.status == "activated") = false := by rw [hs]; decide
    have heq : activate db now user code =
        .error (.conflict "This key has been revoked") := by
      simp [activate, hc, hfind, b1, hs]
    exact ⟨heq, rfl, by rw [heq]; rfl⟩
  · have b1 : (key.status == "activated") = false := by
      simp only [beq_eq_false_iff_ne, ne_eq]; exact h1
    have b2 : (key.status == "revoked") = false := by
      simp only [beq_eq_false_iff_ne, ne_eq]; exact h2
    have b3 : (key.status == "available") = false := by
      simp only [beq_eq_false_iff_ne, ne_eq]; exact h3
    have b4 : (key.status == "sold") = false := by
      simp only [beq_eq_false_iff_ne, ne_eq]; exact h4
    have heq : activate db now user code =
        .error (.badRequest "This key cannot be activated") := by
      simp [activate, hc, hfind, b1, b2, b3, b4]
    exact ⟨heq, rfl, by rw [heq]; rfl⟩

/-- Fixtures for the C3 witness: a key already activated by user 2,
re-redeemed by user 7. -/
def c3_key : ActivationKey :=
  { blank_key with
    status := "activated"
    user_id := some 2
    activated_email := some "first@example.com"
    activated_at := some 0
    expires_at := some (30 * day) }

def c3_db : DB := { users := [], keys := [c3_key], devices := [] }

def c3_caller : User :=
  { id := 7, email := "second@example.com", password_hash := "h"
    is_active := true, is_admin := false }

theorem c3_witness :
    ("K1" ≠ "" ∧
      c3_db.keys.find? (fun k => k.key_code == "K1") = some c3_key) ∧
    ((c3_key.status = "activated" →
      activate c3_db (5 * day) c3_caller "K1" =
        .error (.conflict "This key has already been activated") ∧
      (ApiErr.conflict "This key has already been activated").code = 409 ∧
      result_state c3_db (activate c3_db (5 * day) c3_caller "K1") = c3_db) ∧
    (c3_key.status = "revoked" →
      activate c3_db (5 * day) c3_caller "K1" =
        .error (.conflict "This key has been revoked") ∧
      (ApiErr.conflict "This key has been revoked").code = 409 ∧
      result_state c3_db (activate c3_db (5 * day) c3_caller "K1") = c3_db) ∧
    (c3_key.status ≠ "activated" → c3_key.status ≠ "revoked" →
     c3_key.status ≠ "available" → c3_key.status ≠ "sold" →
      activate c3_db (5 * day) c3_caller "K1" =
        .error (.badRequest "This key cannot be activated") ∧
      (ApiErr.badRequest "This key cannot be activated").code = 400 ∧
      result_state c3_db (activate c3_db (5 * day) c3_caller "K1") = c3_db)) :=
  ⟨⟨by decide, by decide⟩,
    c3_activate_rejects_nonredeemable c3_db (5 * day) c3_caller "K1" c3_key
      (by decide) (by decide)⟩

/-! ### C8 -/

/-- C8: for a non-admin user holding both an activated unexpired key and an
unexpired trial device, both evaluators return `active` (the key lookup
strictly precedes the trial lookup), never `trial`. -/
theorem c8_key_precedes_trial (db : DB) (now : Int) (user : User)
    (hadmin : user.is_admin = false)
    (hkey : ∃ k ∈ db.keys,
      (k.user_id == some user.id && k.status == "activated" &&
        afterB k.expires_at now) = true)
    (_hdev : ∃ d ∈ db.devices,
      (d.user_id == user.id && decide (now < d.trial_expires_at)) = true) :
    (status_route db now user).status = "active" ∧
    (get_activation_status db now user).status = "active" := by
  obtain ⟨x, hfx⟩ : ∃ x, db.keys.find? (fun k =>
      k.user_id == some user.id && k.status == "activated" &&
        afterB k.expires_at now) = some x :=
    Option.isSome_iff_exists.mp (List.find?_isSome.mpr hkey)
  constructor
  · simp [status_route, hfx]
  · simp [get_activation_status, hadmin, hfx]

/-- Fixtures for the C8 witness: user 2 with an unexpired activated key
AND an unexpired trial device at t = 1 day. -/
def c8_user : User :=
  { id := 2, email := "u@example.com", password_hash := "h"
    is_active := true, is_admin := false }

def c8_db : DB :=
  { users := [c8_user]
    keys := [{ blank_key with
      status := "activated"
      user_id := some 2
      activated_email := some "u@example.com"
      activated_at := some 0
      expires_at := some (30 * day) }]
    devices := [{ id := 1, user_id := 2, device_id := "D1", platform := "android"
                  trial_started_at := 0, trial_expires_at := 3 * day
                  created_at := 0 }] }

theorem c8_witness :
    (c8_user.is_admin = false ∧
      (∃ k ∈ c8_db.keys,
        (k.user_id == some c8_user.id && k.status == "activated" &&
          afterB k.expires_at day) = true) ∧
      (∃ d ∈ c8_db.devices,
        (d.user_id == c8_user.id && decide (day < d.trial_expires_at)) = true)) ∧
    (status_route c8_db day c8_user).status = "active" ∧
    (get_activation_status c8_db day c8_user).status = "active" :=
  ⟨⟨by decide, by decide, by decide⟩,
    c8_key_precedes_trial c8_db day c8_user (by decide) (by decide) (by decide)⟩

/-! ### C2 -/

/-- Fixtures for the C2 counterexample: user 2 holds activated key K1
(expiring at day 100); K2 is `available` but with `duration_days = 0`
(the generate / update endpoints never validate positivity). -/
def c2_user : User :=
  { id := 2, email := "u@example.com", password_hash := "h"
    is_active := true, is_admin := false }

def c2_key1 : ActivationKey :=
  { blank_key with
    id := 1, key_code := "K1", duration_days := 100, status := "activated"
    user_id := some 2, activated_email := some "u@example.com"
    activated_at := some 0, expires_at := some (100 * day) }

def c2_key2 : ActivationKey :=
  { blank_key with id := 2, key_code := "K2", duration_days := 0 }

def c2_db : DB := { users := [c2_user], keys := [c2_key1, c2_key2], devices := [] }

/-- Expected store after the second redemption at t = 0. -/
def c2_db2 : DB :=
  { c2_db with
    keys := [c2_key1,
      { c2_key2 with
        user_id := some 2
        activated_email := some "u@example.com"
        activated_at := some 0
        expires_at := some 0
        status := "activated" }] }

/-- C2 counterexample: all premises of the claim hold at this input (user 2
holds activated key K1 with future expiry; K2 is `available`), the second
redemption succeeds — but the claim's conclusion fails: the second key is
activated with `expires_at = now` (its `duration_days` is 0), so it is NOT
"in the future". -/
theorem c2_counterexample :
    (c2_key1 ∈ c2_db.keys ∧ c2_key1.user_id = some c2_user.id ∧
      c2_key1.status = "activated" ∧ afterB c2_key1.expires_at 0 = true ∧
      c2_db.keys.find? (fun k => k.key_code == "K2") = some c2_key2 ∧
      c2_key2.status = "available") ∧
    activate c2_db 0 c2_user "K2" = .ok c2_db2 ∧
    c2_db2.keys.all
      (fun k => !(k.key_code == "K2") || !(afterB k.expires_at 0)) = true := by
  decide

/-- C2 amended: redemption by a user who already holds an activated
unexpired key is indeed not rejected (the source's `existing_active` lookup
is dead code), and afterwards both keys are simultaneously `activated` with
`user_id` = that user; the second key's `expires_at` is in the future
PROVIDED its `duration_days` is at least 1 (a zero- or negative-duration
key yields an immediately-expired activation). -/
theorem c2_amended_second_redemption_stacks (db : DB) (now : Int) (user : User)
    (code2 : String) (key1 key2 : ActivationKey)
    (hcode : code2 ≠ "")
    (h1mem : key1 ∈ db.keys) (h1user : key1.user_id = some user.id)
    (h1st : key1.status = "activated") (h1exp : afterB key1.expires_at now = true)
    (hfind : db.keys.find? (fun k => k.key_code == code2) = some key2)
    (h2st : key2.status = "available" ∨ key2.status = "sold")
    (hneq : key1.key_code ≠ code2)
    (hdur : 1 ≤ key2.duration_days) :
    ∃ db', activate db now user code2 = .ok db' ∧
      (key1 ∈ db'.keys ∧ key1.status = "activated" ∧
        key1.user_id = some user.id ∧ afterB key1.expires_at now = true) ∧
      (∃ k2 ∈ db'.keys, k2.key_code = key2.key_code ∧ k2.status = "activated" ∧
        k2.user_id = some user.id ∧ afterB k2.expires_at now = true) := by
  have hc : (code2 == "") = false := by
    simp only [beq_eq_false_iff_ne, ne_eq]
    exact hcode
  have b1 : (key2.status == "activated") = false := by
    rcases h2st with h | h <;> rw [h] <;> decide
  have b2 : (key2.status == "revoked") = false := by
    rcases h2st with h | h <;> rw [h] <;> decide
  have b3 : (key2.status == "available" || key2.status == "sold") = true := by
    rcases h2st with h | h <;> rw [h] <;> decide
  have heq : activate db now user code2 = .ok { db with
      keys := update_first (fun k => k.key_code == code2)
        (fun k => { k with
          user_id := some user.id
          activated_email := some user.email
          activated_at := some now
          expires_at := some (now + key2.duration_days * day)
          status := "activated" }) db.keys } := by
    simp [activate, hc, hfind, b1, b2, b3]
  refine ⟨_, heq, ⟨?_, h1st, h1user, h1exp⟩, ?_⟩
  · exact mem_update_first_of_neg h1mem (by
      simp only [beq_eq_false_iff_ne, ne_eq]
      exact hneq)
  · refine ⟨_, find?_update_first_mem hfind, rfl, rfl, rfl, ?_⟩
    simp only [afterB, day, decide_eq_true_eq]
    omega

/-- Fixtures for the C2 amended-claim witness: same shape, but the second
key has a positive duration (30 days). -/
def c2w_key2 : ActivationKey :=
  { blank_key with id := 2, key_code := "K2", duration_days := 30 }

def c2w_db : DB := { users := [c2_user], keys := [c2_key1, c2w_key2], devices := [] }

theorem c2_amended_witness :
    ("K2" ≠ "" ∧ c2_key1 ∈ c2w_db.keys ∧ c2_key1.user_id = some c2_user.id ∧
      c2_key1.status = "activated" ∧ afterB c2_key1.expires_at 0 = true ∧
      c2w_db.keys.find? (fun k => k.key_code == "K2") = some c2w_key2 ∧
      (c2w_key2.status = "available" ∨ c2w_key2.status = "sold") ∧
      c2_key1.key_code ≠ "K2" ∧ 1 ≤ c2w_key2.duration_days) ∧
    (∃ db', activate c2w_db 0 c2_user "K2" = .ok db' ∧
      (c2_key1 ∈ db'.keys ∧ c2_key1.status = "activated" ∧
        c2_key1.user_id = some c2_user.id ∧ afterB c2_key1.expires_at 0 = true) ∧
      (∃ k2 ∈ db'.keys, k2.key_code = c2w_key2.key_code ∧ k2.status = "activated" ∧
        k2.user_id = some c2_user.id ∧ afterB k2.expires_at 0 = true)) :=
  ⟨⟨by decide, by decide, by decide, by decide, by decide, by decide,
      Or.inl (by decide), by decide, by decide⟩,
    c2_amended_second_redemption_stacks c2w_db 0 c2_user "K2" c2_key1 c2w_key2
      (by decide) (by decide) (by decide) (by decide) (by decide) (by decide)
      (Or.inl (by decide)) (by decide) (by decide)⟩

/-! ### C4 -/

/-- The sale-field block touches none of the invariant-relevant columns. -/
theorem apply_sale_fields_inv_fields (key : ActivationKey) (data : KeyUpdate) :
    (apply_sale_fields key data).status = key.status ∧
    (apply_sale_fields key data).user_id = key.user_id ∧
    (apply_sale_fields key data).activated_email = key.activated_email ∧
    (apply_sale_fields key data).activated_at = key.activated_at ∧
    (apply_sale_fields key data).expires_at = key.expires_at := by
  unfold apply_sale_fields
  cases data.sold_to_name <;> cases data.sold_to_email <;>
    cases data.sold_price <;> cases data.notes <;>
    exact ⟨rfl, rfl, rfl, rfl, rfl⟩

theorem key_inv_b_sale_fields (key : ActivationKey) (data : KeyUpdate)
    (hk : key_inv_b key = true) : key_inv_b (apply_sale_fields key data) = true := by
  obtain ⟨h1, h2, h3, h4, h5⟩ := apply_sale_fields_inv_fields key data
  unfold key_inv_b at hk ⊢
  rw [h1, h2, h3, h4, h5]
  exact hk

/-- Direct introduction form of the per-key invariant. -/
theorem key_inv_b_intro {k : ActivationKey} (hu : k.user_id.isSome = true)
    (he : k.activated_email.isSome = true) {a e : Int}
    (ha : k.activated_at = some a) (hx : k.expires_at = some e) (hlt : a < e) :
    key_inv_b k = true := by
  unfold key_inv_b opt_lt
  rw [ha, hx]
  simp [hu, he, hlt]

theorem key_inv_apply_status (now : Int) (devices : List Device)
    (key : ActivationKey) (data : KeyUpdate) (hk : key_inv_b key = true) :
    key_inv_b (apply_status_update now devices key data).1 = true := by
  unfold apply_status_update
  cases data.status with
  | none => exact hk
  | some s =>
    by_cases h1 : (s == "revoked") = true
    · simp only [h1, if_true]
      exact key_inv_b_of_not_activated (by rfl)
    · rw [Bool.not_eq_true] at h1
      simp only [h1, Bool.false_eq_true, if_false]
      by_cases h2 : (s == "sold" && key.status == "available") = true
      · simp only [h2, if_true]
        exact key_inv_b_of_not_activated (by rfl)
      · rw [Bool.not_eq_true] at h2
        simp only [h2, Bool.false_eq_true, if_false]
        exact hk

theorem key_inv_apply_duration (key : ActivationKey) (data : KeyUpdate)
    (hk : key_inv_b key = true)
    (hdur : ∀ nd, data.duration_days = some nd → 1 ≤ nd) :
    key_inv_b (apply_duration_update key data) = true := by
  unfold apply_duration_update
  cases hd : data.duration_days with
  | none => exact hk
  | some nd =>
    have hnd : 1 ≤ nd := hdur nd hd
    by_cases hs : (key.status == "activated") = true
    · obtain ⟨hu, he, a, e, ha, hx, _⟩ := key_inv_b_elim hk hs
      have hcond : (({ key with duration_days := nd } : ActivationKey).status ==
          "activated") = true := hs
      simp only [hcond, if_true]
      split
      · rename_i a1 ha1
        have haa : some a = some a1 := ha.symm.trans ha1
        injection haa with haa
        subst haa
        have hday : (0 : Int) < day := by decide
        exact @key_inv_b_intro _ hu he a (a + nd * day) ha rfl (by nlinarith)
      · rename_i ha1
        exact absurd (ha.symm.trans ha1) (by simp)
    · rw [Bool.not_eq_true] at hs
      simp only [hs, Bool.false_eq_true, if_false]
      exact key_inv_b_of_not_activated hs

theorem key_inv_apply_key_update (now : Int) (devices : List Device)
    (key : ActivationKey) (data : KeyUpdate) (hk : key_inv_b key = true)
    (hdur : ∀ nd, data.duration_days = some nd → 1 ≤ nd) :
    key_inv_b (apply_key_update now devices key data).1 = true :=
  key_inv_apply_duration _ _
    (key_inv_b_sale_fields _ _ (key_inv_apply_status now devices key data hk)) hdur

/-- Fixtures for the C4 counterexample: a well-formed activated key whose
`duration_days` the admin then sets to 0 via the metadata-update endpoint
(never validated), retroactively recomputing `expires_at = activated_at`. -/
def c4_key : ActivationKey :=
  { blank_key with
    status := "activated"
    user_id := some 2
    activated_email := some "u@example.com"
    activated_at := some 0
    expires_at := some (30 * day)
    duration_days := 30 }

def c4_db : DB := { users := [], keys := [c4_key], devices := [] }

/-- Expected store after `PUT /admin/keys/1` with body `duration_days = 0`. -/
def c4_db2 : DB :=
  { c4_db with keys := [{ c4_key with duration_days := 0, expires_at := some 0 }] }

/-- C4 counterexample: the invariant holds before, the admin metadata
update setting `duration_days = 0` on the activated key succeeds, and
afterwards the key is still `activated` but `expires_at = activated_at`,
violating the strict `expires_at > activated_at` part of the invariant. -/
theorem c4_counterexample :
    db_key_inv c4_db ∧
    update_key c4_db (40 * day) 1 { duration_days := some 0 } = .ok c4_db2 ∧
    ¬ db_key_inv c4_db2 := by
  decide

/-- C4 amended: the invariant (every `activated` key has the four
redemption fields non-null and `expires_at > activated_at`) is preserved by
redeem, admin assign, extend and admin metadata update PROVIDED the
duration values involved are positive: every stored `duration_days` is at
least 1 for redeem/assign, and a supplied new `duration_days` is at least 1
for the metadata update (the handlers never validate this; 0 or negative
durations break the strict inequality, as the counterexample shows). -/
theorem c4_amended_inv_preserved (db : DB) (now : Int) (hinv : db_key_inv db) :
    (∀ user code db', (∀ k ∈ db.keys, 1 ≤ k.duration_days) →
      activate db now user code = .ok db' → db_key_inv db') ∧
    (∀ uid kid db', (∀ k ∈ db.keys, 1 ≤ k.duration_days) →
      assign_key db now uid kid = .ok db' → db_key_inv db') ∧
    (∀ uid days db', extend_license db now uid days = .ok db' → db_key_inv db') ∧
    (∀ kid data db', (∀ nd, data.duration_days = some nd → 1 ≤ nd) →
      update_key db now kid data = .ok db' → db_key_inv db') := by
  refine ⟨?_, ?_, ?_, ?_⟩
  · -- redeem
    intro user code db' hpos h
    unfold activate at h
    split at h
    · exact absurd h (by simp)
    · split at h
      · exact absurd h (by simp)
      · rename_i key hfind
        split at h
        · exact absurd h (by simp)
        · split at h
          · exact absurd h (by simp)
          · split at h
            · exact absurd h (by simp)
            · injection h with h
              subst h
              intro k hk
              rcases mem_update_first hk with hmem | ⟨x, hx, _, rfl⟩
              · exact hinv k hmem
              · have hpk := hpos key (List.mem_of_find?_eq_some hfind)
                have hday : (0 : Int) < day := by decide
                exact @key_inv_b_intro _ rfl rfl now
                  (now + key.duration_days * day) rfl rfl (by nlinarith)
  · -- admin assign
    intro uid kid db' hpos h
    unfold assign_key at h
    split at h
    · exact absurd h (by simp)
    · split at h
      · exact absurd h (by simp)
      · split at h
        · exact absurd h (by simp)
        · split at h
          · exact absurd h (by simp)
          · rename_i key hfind
            split at h
            · exact absurd h (by simp)
            · injection h with h
              subst h
              intro k hk
              rcases mem_update_first hk with hmem | ⟨x, hx, _, rfl⟩
              · exact hinv k hmem
              · have hpk := hpos key (List.mem_of_find?_eq_some hfind)
                have hday : (0 : Int) < day := by decide
                exact @key_inv_b_intro _ rfl rfl now
                  (now + key.duration_days * day) rfl rfl (by nlinarith)
  · -- extend
    intro uid days db' h
    unfold extend_license at h
    split at h
    · exact absurd h (by simp)
    · split at h
      · exact absurd h (by simp)
      · split at h
        · exact absurd h (by simp)
        · rename_i hdays
          split at h
          · exact absurd h (by simp)
          · rename_i key hfind
            split at h
            · injection h with h
              subst h
              intro k hk
              rcases mem_update_first hk with hmem | ⟨x, hx, hpx, rfl⟩
              · exact hinv k hmem
              · have hxinv := hinv x hx
                have hxact : (x.status == "activated") = true :=
                  (Bool.and_eq_true _ _ |>.mp hpx).2
                obtain ⟨hu, he, a, e, ha, hxp, hlt⟩ := key_inv_b_elim hxinv hxact
                have hday : (0 : Int) < day := by decide
                have hds : (1 : Int) ≤ days := by omega
                exact @key_inv_b_intro _ hu he a (e + days * day) ha
                  (by simp [hxp]) (by nlinarith)
            · injection h with h
              subst h
              intro k hk
              rcases mem_update_first hk with hmem | ⟨x, hx, hpx, rfl⟩
              · exact hinv k hmem
              · have hxinv := hinv x hx
                have hxact : (x.status == "activated") = true :=
                  (Bool.and_eq_true _ _ |>.mp hpx).2
                obtain ⟨hu, he, a, e, ha, hxp, hlt⟩ := key_inv_b_elim hxinv hxact
                have hday : (0 : Int) < day := by decide
                have hds : (1 : Int) ≤ days := by omega
                exact @key_inv_b_intro _ hu he now (now + days * day) rfl rfl
                  (by nlinarith)
  · -- admin metadata update
    intro kid data db' hdur h
    unfold update_key at h
    split at h
    · exact absurd h (by simp)
    · rename_i key hfind
      injection h with h
      subst h
      intro k hk
      rcases mem_update_first hk with hmem | ⟨x, hx, _, rfl⟩
      · exact hinv k hmem
      · exact key_inv_apply_key_update now db.devices key data
          (hinv key (List.mem_of_find?_eq_some hfind)) hdur

/-- Fixture for the C4 witness: a store satisfying the invariant with
positive durations. -/
def c4w_db : DB := { users := [c2_user], keys := [c4_key], devices := [] }

theorem c4_amended_witness :
    db_key_inv c4w_db ∧
    ((∀ user code db', (∀ k ∈ c4w_db.keys, 1 ≤ k.duration_days) →
      activate c4w_db 0 user code = .ok db' → db_key_inv db') ∧
    (∀ uid kid db', (∀ k ∈ c4w_db.keys, 1 ≤ k.duration_days) →
      assign_key c4w_db 0 uid kid = .ok db' → db_key_inv db') ∧
    (∀ uid days db', extend_license c4w_db 0 uid days = .ok db' → db_key_inv db') ∧
    (∀ kid data db', (∀ nd, data.duration_days = some nd → 1 ≤ nd) →
      update_key c4w_db 0 kid data = .ok db' → db_key_inv db')) :=
  ⟨by decide, c4_amended_inv_preserved c4w_db 0 (by decide)⟩

/-! ### C5 -/

/-- `afterB` in its existential reading. -/
theorem afterB_eq_true {t : Option Int} {now : Int} (h : afterB t now = true) :
    ∃ x, t = some x ∧ now < x := by
  cases t with
  | none => simp [afterB] at h
  | some x =>
    refine ⟨x, rfl, ?_⟩
    simpa [afterB] using h

/-- C5: extend-by-N semantics.  With a valid target user and `N ≥ 1`:
the call fails with the no-activated-key error exactly when the user has no
key in status `activated` (regardless of expiry); on an unexpired key it
extends additively (`expires_at + N` days, `duration_days + N`) keeping
`activated_at`; on an expired (or null-expiry) key it restarts the window
(`activated_at = now`, `expires_at = now + N` days, `duration_days = N`). -/
theorem c5_extend_semantics (db : DB) (now : Int) (uid : Nat) (days : Int)
    (h1 : uid ≠ 1) (h2 : (db.users.find? (fun u => u.id == uid)).isSome = true)
    (h3 : 1 ≤ days) :
    (db.keys.find? (fun k => k.user_id == some uid && k.status == "activated") = none →
      extend_license db now uid days = .error (.notFound "User has no activated key")) ∧
    (∀ key, db.keys.find?
        (fun k => k.user_id == some uid && k.status == "activated") = some key →
      afterB key.expires_at now = true →
      ∃ db' e, extend_license db now uid days = .ok db' ∧
        key.expires_at = some e ∧
        ∃ k' ∈ db'.keys, k'.key_code = key.key_code ∧ k'.status = "activated" ∧
          k'.user_id = key.user_id ∧ k'.activated_at = key.activated_at ∧
          k'.expires_at = some (e + days * day) ∧
          k'.duration_days = key.duration_days + days) ∧
    (∀ key, db.keys.find?
        (fun k => k.user_id == some uid && k.status == "activated") = some key →
      afterB key.expires_at now = false →
      ∃ db', extend_license db now uid days = .ok db' ∧
        ∃ k' ∈ db'.keys, k'.key_code = key.key_code ∧ k'.status = "activated" ∧
          k'.user_id = key.user_id ∧ k'.activated_at = some now ∧
          k'.expires_at = some (now + days * day) ∧ k'.duration_days = days) := by
  have hu1 : (uid == 1) = false := by
    simp only [beq_eq_false_iff_ne, ne_eq]
    exact h1
  obtain ⟨u, hu⟩ := Option.isSome_iff_exists.mp h2
  have hd : ¬(days < 1) := by omega
  refine ⟨fun hfind => ?_, fun key hfind haft => ?_, fun key hfind haft => ?_⟩
  · simp [extend_license, hu1, hu, hd, hfind]
  · have hp := List.find?_some hfind
    simp only [Bool.and_eq_true] at hp
    have hstat : (key.status == "activated") = true := hp.2
    obtain ⟨e, he, _⟩ := afterB_eq_true haft
    have heq : extend_license db now uid days = .ok { db with
        keys := update_first
          (fun k => k.user_id == some uid && k.status == "activated")
          (fun k => { k with
            expires_at := k.expires_at.map (fun e => e + days * day)
            duration_days := k.duration_days + days }) db.keys } := by
      simp [extend_license, hu1, hu, hd, hfind, haft]
    refine ⟨_, e, heq, he, _, find?_update_first_mem hfind, rfl, ?_, rfl, rfl, ?_, rfl⟩
    · exact beq_iff_eq.mp hstat
    · rw [he]
      rfl
  · have hp := List.find?_some hfind
    simp only [Bool.and_eq_true] at hp
    have hstat : (key.status == "activated") = true := hp.2
    have heq : extend_license db now uid days = .ok { db with
        keys := update_first
          (fun k => k.user_id == some uid && k.status == "activated")
          (fun k => { k with
            activated_at := some now
            expires_at := some (now + days * day)
            duration_days := days }) db.keys } := by
      simp [extend_license, hu1, hu, hd, hfind, haft]
    refine ⟨_, heq, _, find?_update_first_mem hfind, rfl, ?_, rfl, rfl, rfl, rfl⟩
    exact beq_iff_eq.mp hstat

/-- Fixtures for the C5 witness: user 2 with an activated key unexpired at
t = day (K1, 30 days, expires day 30). -/
def c5_db : DB := { users := [c2_user], keys := [c2_key1], devices := [] }

theorem c5_witness :
    ((2 : Nat) ≠ 1 ∧
      (c5_db.users.find? (fun u => u.id == 2)).isSome = true ∧ (1 : Int) ≤ 10) ∧
    ((c5_db.keys.find?
        (fun k => k.user_id == some 2 && k.status == "activated") = none →
      extend_license c5_db day 2 10 = .error (.notFound "User has no activated key")) ∧
    (∀ key, c5_db.keys.find?
        (fun k => k.user_id == some 2 && k.status == "activated") = some key →
      afterB key.expires_at day = true →
      ∃ db' e, extend_license c5_db day 2 10 = .ok db' ∧
        key.expires_at = some e ∧
        ∃ k' ∈ db'.keys, k'.key_code = key.key_code ∧ k'.status = "activated" ∧
          k'.user_id = key.user_id ∧ k'.activated_at = key.activated_at ∧
          k'.expires_at = some (e + 10 * day) ∧
          k'.duration_days = key.duration_days + 10) ∧
    (∀ key, c5_db.keys.find?
        (fun k => k.user_id == some 2 && k.status == "activated") = some key →
      afterB key.expires_at day = false →
      ∃ db', extend_license c5_db day 2 10 = .ok db' ∧
        ∃ k' ∈ db'.keys, k'.key_code = key.key_code ∧ k'.status = "activated" ∧
          k'.user_id = key.user_id ∧ k'.activated_at = some day ∧
          k'.expires_at = some (day + 10 * day) ∧ k'.duration_days = 10)) :=
  ⟨⟨by decide, by decide, by decide⟩,
    c5_extend_semantics c5_db day 2 10 (by decide) (by decide) (by decide)⟩

/-! ### C6 -/

/-- C6: revocation via `PUT /admin/keys/{id}` with body `status = revoked`:
the key row gets `status = revoked` with all four redemption fields nulled
while its sale-tracking fields (and code, duration, notes) are untouched;
every device of the key's pre-revocation user whose trial is still running
is force-expired to `now`; all other devices are unchanged; users are
unchanged. -/
theorem c6_revoke_clears_and_expires (db : DB) (now : Int) (kid : Nat)
    (key : ActivationKey)
    (hfind : db.keys.find? (fun k => k.id == kid) = some key) :
    ∃ db', update_key db now kid { status := some "revoked" } = .ok db' ∧
      db'.users = db.users ∧
      (∃ k' ∈ db'.keys, k'.key_code = key.key_code ∧ k'.status = "revoked" ∧
        k'.user_id = none ∧ k'.activated_email = none ∧ k'.activated_at = none ∧
        k'.expires_at = none ∧
        k'.sold_to_name = key.sold_to_name ∧ k'.sold_to_email = key.sold_to_email ∧
        k'.sold_at = key.sold_at ∧ k'.sold_price = key.sold_price ∧
        k'.notes = key.notes ∧ k'.duration_days = key.duration_days) ∧
      (∀ d ∈ db.devices,
        (key.user_id = some d.user_id → now < d.trial_expires_at →
          { d with trial_expires_at := now } ∈ db'.devices) ∧
        (key.user_id ≠ some d.user_id ∨ ¬(now < d.trial_expires_at) →
          d ∈ db'.devices)) := by
  have heq : update_key db now kid { status := some "revoked" } = .ok { db with
      keys := update_first (fun k => k.id == kid)
        (fun _ => (apply_key_update now db.devices key
          { status := some "revoked" }).1) db.keys
      devices := (apply_key_update now db.devices key
        { status := some "revoked" }).2 } := by
    simp [update_key, hfind]
  refine ⟨_, heq, rfl, ⟨_, find?_update_first_mem hfind,
    rfl, rfl, rfl, rfl, rfl, rfl, rfl, rfl, rfl, rfl, rfl, rfl⟩, ?_⟩
  intro d hd
  constructor
  · intro hku hlt
    cases hku' : key.user_id with
    | none => rw [hku'] at hku; cases hku
    | some uid =>
      rw [hku'] at hku
      injection hku with hku
      show { d with trial_expires_at := now } ∈
        (apply_key_update now db.devices key { status := some "revoked" }).2
      unfold apply_key_update apply_status_update
      simp only [hku']
      have hcond : (d.user_id == uid && decide (now < d.trial_expires_at)) = true := by
        simp [hku, hlt]
      refine List.mem_map.mpr ⟨d, hd, ?_⟩
      simp [hcond]
  · intro hother
    show d ∈ (apply_key_update now db.devices key { status := some "revoked" }).2
    unfold apply_key_update apply_status_update
    cases hku' : key.user_id with
    | none => simpa using hd
    | some uid =>
      simp only [hku']
      have hcond : (d.user_id == uid && decide (now < d.trial_expires_at)) = false := by
        rcases hother with hne | hnl
        · have : d.user_id ≠ uid := by
            intro hcontra
            exact hne (by rw [hku', hcontra])
          simp [this]
        · simp [hnl]
      refine List.mem_map.mpr ⟨d, hd, ?_⟩
      simp [hcond]

/-- Fixtures for the C6 witness: activated key of user 2 with one running
and one lapsed trial device. -/
def c6_db : DB :=
  { users := [c2_user]
    keys := [c4_key]
    devices := [
      { id := 1, user_id := 2, device_id := "D1", platform := "android"
        trial_started_at := 0, trial_expires_at := 10 * day, created_at := 0 },
      { id := 2, user_id := 2, device_id := "D2", platform := "web"
        trial_started_at := 0, trial_expires_at := day, created_at := 0 }] }

theorem c6_witness :
    c6_db.keys.find? (fun k => k.id == 1) = some c4_key ∧
    (∃ db', update_key c6_db (2 * day) 1 { status := some "revoked" } = .ok db' ∧
      db'.users = c6_db.users ∧
      (∃ k' ∈ db'.keys, k'.key_code = c4_key.key_code ∧ k'.status = "revoked" ∧
        k'.user_id = none ∧ k'.activated_email = none ∧ k'.activated_at = none ∧
        k'.expires_at = none ∧
        k'.sold_to_name = c4_key.sold_to_name ∧
        k'.sold_to_email = c4_key.sold_to_email ∧
        k'.sold_at = c4_key.sold_at ∧ k'.sold_price = c4_key.sold_price ∧
        k'.notes = c4_key.notes ∧ k'.duration_days = c4_key.duration_days) ∧
      (∀ d ∈ c6_db.devices,
        (c4_key.user_id = some d.user_id → 2 * day < d.trial_expires_at →
          { d with trial_expires_at := 2 * day } ∈ db'.devices) ∧
        (c4_key.user_id ≠ some d.user_id ∨ ¬(2 * day < d.trial_expires_at) →
          d ∈ db'.devices))) :=
  ⟨by decide, c6_revoke_clears_and_expires c6_db (2 * day) 1 c4_key (by decide)⟩

/-! ### C7 -/

/-- C7: once a device row exists for a `(device_id, platform)` pair, any
further registration attempt naming that pair — by any user, with
well-formed inputs — fails with a 409 Conflict (either the duplicate-email
conflict or the trial-already-used conflict, both 409), creates no rows and
leaves the store, in particular the existing row's trial window,
unchanged. -/
theorem c7_second_registration_conflicts (ext : Ext) (db : DB) (now : Int)
    (inp : RegisterInput)
    (h1 : inp.email ≠ "") (h2 : inp.password ≠ "") (h3 : inp.device_id ≠ "")
    (h4 : ext.validate_email inp.email = true)
    (h5 : ext.validate_password inp.password = true)
    (h6 : inp.platform = "android" ∨ inp.platform = "web")
    (hdev : ∃ d ∈ db.devices,
      (d.device_id == inp.device_id && d.platform == inp.platform) = true) :
    (∃ m, register ext db now inp = .error (.conflict m) ∧
      (ApiErr.conflict m).code = 409) ∧
    result_state db (register ext db now inp) = db := by
  have e1 : (inp.email == "") = false := by
    simp only [beq_eq_false_iff_ne, ne_eq]
    exact h1
  have e2 : (inp.password == "") = false := by
    simp only [beq_eq_false_iff_ne, ne_eq]
    exact h2
  have e3 : (inp.device_id == "") = false := by
    simp only [beq_eq_false_iff_ne, ne_eq]
    exact h3
  have e6 : (inp.platform == "android" || inp.platform == "web") = true := by
    rcases h6 with h | h <;> rw [h] <;> decide
  have hfd : (db.devices.find? (fun d =>
      d.device_id == inp.device_id && d.platform == inp.platform)).isSome = true :=
    List.find?_isSome.mpr hdev
  by_cases hmail : (db.users.find? (fun u => u.email == inp.email)).isSome = true
  · have heq : register ext db now inp = .error (.conflict "Email already registered") := by
      simp [register, e1, e2, e3, h4, h5, e6, hmail]
    exact ⟨⟨_, heq, rfl⟩, by rw [heq]; rfl⟩
  · rw [Bool.not_eq_true] at hmail
    have heq : register ext db now inp =
        .error (.conflict "This device has already been used for a trial period") := by
      simp [register, e1, e2, e3, h4, h5, e6, hmail, hfd]
    exact ⟨⟨_, heq, rfl⟩, by rw [heq]; rfl⟩

/-- Fixtures for the C7 witness: device pair (D1, android) already
registered to user 2; a different person re-attempts registration with a
fresh email on the same device. -/
def c7_db : DB :=
  { users := [c2_user]
    keys := []
    devices := [{ id := 1, user_id := 2, device_id := "D1", platform := "android"
                  trial_started_at := 0, trial_expires_at := 3 * day
                  created_at := 0 }] }

def c7_inp : RegisterInput :=
  { email := "other@example.com", password := "secret7", device_id := "D1"
    platform := "android" }

theorem c7_witness :
    (c7_inp.email ≠ "" ∧ c7_inp.password ≠ "" ∧ c7_inp.device_id ≠ "" ∧
      ext0.validate_email c7_inp.email = true ∧
      ext0.validate_password c7_inp.password = true ∧
      (c7_inp.platform = "android" ∨ c7_inp.platform = "web") ∧
      (∃ d ∈ c7_db.devices,
        (d.device_id == c7_inp.device_id && d.platform == c7_inp.platform) = true)) ∧
    (∃ m, register ext0 c7_db 0 c7_inp = .error (.conflict m) ∧
      (ApiErr.conflict m).code = 409) ∧
    result_state c7_db (register ext0 c7_db 0 c7_inp) = c7_db :=
  ⟨⟨by decide, by decide, by decide, by decide, by decide,
      Or.inl (by decide), by decide⟩,
    c7_second_registration_conflicts ext0 c7_db 0 c7_inp (by decide) (by decide)
      (by decide) (by decide) (by decide) (Or.inl (by decide)) (by decide)⟩

/-! ### C10 -/

/-- Rows of the left part of a pairwise-unique appended device table keep
their pairs to themselves. -/
theorem pairs_unique_append_bound {l t : List Device}
    (hpu : pairs_unique (l ++ t) = true) :
    ∀ d ∈ l, d ∈ l ++ t ∧ ∀ d' ∈ l ++ t, d'.device_id = d.device_id →
      d'.platform = d.platform → d' = d := by
  intro d hd
  have hd' : d ∈ l ++ t := List.mem_append_left t hd
  exact ⟨hd', fun d2 hd2 hid hpf => pairs_unique_bound hpu hd' hd2 hid hpf⟩

/-- C10: with a pairwise-unique device table, both device-creating
operations — trial registration and the login-time observe-device insert —
keep the table pairwise-unique, keep every pre-existing row verbatim, and
keep each pre-existing `(device_id, platform)` pair bound to its original
row (hence to the user who first registered it): any post-state row sharing
a pre-existing row's pair IS that row.  For login this holds because the
insert of a pair held by a different user is rejected by the
`uq_device_platform` constraint at commit (the request errors, nothing is
written). -/
theorem c10_device_uniqueness_preserved (ext : Ext) (db : DB) (now : Int)
    (inpR : RegisterInput) (inpL : LoginInput)
    (huniq : pairs_unique db.devices = true) :
    (∀ db', register ext db now inpR = .ok db' →
      pairs_unique db'.devices = true ∧
      ∀ d ∈ db.devices, d ∈ db'.devices ∧
        ∀ d' ∈ db'.devices, d'.device_id = d.device_id →
          d'.platform = d.platform → d' = d) ∧
    (∀ db', login ext db now inpL = .ok db' →
      pairs_unique db'.devices = true ∧
      ∀ d ∈ db.devices, d ∈ db'.devices ∧
        ∀ d' ∈ db'.devices, d'.device_id = d.device_id →
          d'.platform = d.platform → d' = d) := by
  constructor
  · intro db' h
    unfold register at h
    split at h
    · exact absurd h (by simp)
    · split at h
      · exact absurd h (by simp)
      · split at h
        · exact absurd h (by simp)
        · split at h
          · exact absurd h (by simp)
          · split at h
            · exact absurd h (by simp)
            · split at h
              · exact absurd h (by simp)
              · dsimp only [] at h
                split at h
                · rename_i hcommit
                  injection h with h
                  subst h
                  have hpu := (Bool.and_eq_true _ _ |>.mp hcommit).2
                  exact ⟨hpu, pairs_unique_append_bound hpu⟩
                · exact absurd h (by simp)
  · intro db' h
    unfold login at h
    split at h
    · exact absurd h (by simp)
    · split at h
      · exact absurd h (by simp)
      · split at h
        · exact absurd h (by simp)
        · split at h
          · exact absurd h (by simp)
          · split at h
            · injection h with h
              subst h
              exact ⟨huniq, fun d hd => ⟨hd, fun d2 hd2 hid hpf =>
                pairs_unique_bound huniq hd hd2 hid hpf⟩⟩
            · split at h
              · injection h with h
                subst h
                exact ⟨huniq, fun d hd => ⟨hd, fun d2 hd2 hid hpf =>
                  pairs_unique_bound huniq hd hd2 hid hpf⟩⟩
              · dsimp only [] at h
                split at h
                · rename_i hcommit
                  injection h with h
                  subst h
                  exact ⟨hcommit, pairs_unique_append_bound hcommit⟩
                · exact absurd h (by simp)

/-- Fixtures for the C10 witness: one registered device; a fresh
registration on a new pair and a login of the same user naming the same
device. -/
def c10_db : DB := c7_db

def c10_reg : RegisterInput :=
  { email := "fresh@example.com", password := "secret10", device_id := "D9"
    platform := "web" }

def c10_log : LoginInput :=
  { email := "u@example.com", password := "h", device_id := "D1"
    platform := "android" }

theorem c10_witness :
    pairs_unique c10_db.devices = true ∧
    ((∀ db', register ext0 c10_db 0 c10_reg = .ok db' →
      pairs_unique db'.devices = true ∧
      ∀ d ∈ c10_db.devices, d ∈ db'.devices ∧
        ∀ d' ∈ db'.devices, d'.device_id = d.device_id →
          d'.platform = d.platform → d' = d) ∧
    (∀ db', login ext0 c10_db 0 c10_log = .ok db' →
      pairs_unique db'.devices = true ∧
      ∀ d ∈ c10_db.devices, d ∈ db'.devices ∧
        ∀ d' ∈ db'.devices, d'.device_id = d.device_id →
          d'.platform = d.platform → d' = d)) :=
  ⟨by decide, c10_device_uniqueness_preserved ext0 c10_db 0 c10_reg c10_log (by decide)⟩

end PrinterWeb
